import Mathlib

/-!
Shallow embedding of the task-management backend
(`src/backend/src/services/task_service.py`, `src/backend/src/api/routers/tasks.py`,
`src/backend/src/services/user_service.py`, `src/backend/src/middleware/rate_limiter.py`)
into Lean 4, together with theorems settling the frozen claims about it.

Modelling conventions:
- UUIDs are modelled as `String` (the code always compares them string-normalized
  via `str(...)`).
- Datetimes are modelled as `Nat` timestamps; `datetime.max` (used only as the
  sort key for a null due date) is modelled by the `dueLe` comparison treating
  `none` as the top element.
- The SQL store is a `List TaskRec` (resp. `List UserRec`); a `select ... where`
  is a `List.filter`, `offset`/`limit` are `drop`/`take`, and
  `scalar_one_or_none` over a unique id is `List.find?`.
- Functions that mutate the database return the new store explicitly.
- The best-effort reminder-planning side step (`NotificationService
  .schedule_reminders_for_task`, an external collaborator) is a parameter of
  type `Except String Unit`: `.error e` models the planner raising exception
  `e`; the `try/except` of the source catches it and appends a warning to the
  returned log.
- `bcrypt` verification is an opaque parameter `verify`; the embedding of
  `authenticate_user` additionally counts how many times `verify` is invoked,
  so that the sequence of hash comparisons performed is observable.
-/

/-- A row of the `users` table (`src/backend/src/models/user.py`). Only the
fields the claims touch are carried. -/
structure UserRec where
  id : String
  email : String
  hashed_password : String
deriving Repr, DecidableEq

/-- A row of the `tasks` table (`src/backend/src/models/task.py`, class `Task`). -/
structure TaskRec where
  id : String
  user_id : String
  title : String
  description : Option String
  is_completed : Bool
  priority : Nat
  due_date : Option Nat
  version : Nat
  created_at : Nat
  updated_at : Nat
  deleted_at : Option Nat
  notification_settings : String
deriving Repr, DecidableEq

/-- `TaskCreate` (`src/backend/src/models/task.py`): payload for creating a
task; `model_dump()` yields all of these fields (defaults included). -/
structure TaskCreateRec where
  title : String
  description : Option String
  is_completed : Bool
  priority : Nat
  due_date : Option Nat
  user_id : String
deriving Repr, DecidableEq

/-- `TaskUpdate` (`src/backend/src/models/task.py`): partial update. A field
with value `none` is *unset* and is absent from
`model_dump(exclude_unset=True)`; `due_date := some none` models explicitly
setting the due date to null. -/
structure TaskUpdateRec where
  title : Option String := none
  description : Option (Option String) := none
  is_completed : Option Bool := none
  priority : Option Nat := none
  due_date : Option (Option Nat) := none
deriving Repr, DecidableEq

/-- A `TaskUpdate` with at least one field set (a non-empty partial update). -/
def TaskUpdateRec.nonEmpty (u : TaskUpdateRec) : Bool :=
  u.title.isSome || u.description.isSome || u.is_completed.isSome ||
    u.priority.isSome || u.due_date.isSome

/-- The `setattr` loop of `TaskService.update_task`
(`task_service.py` lines 55-57): apply exactly the fields present in
`model_dump(exclude_unset=True)`; everything else (in particular `version` and
the timestamps) is untouched. -/
def applyTaskUpdate (u : TaskUpdateRec) (t : TaskRec) : TaskRec :=
  { t with
    title := u.title.getD t.title
    description := u.description.getD t.description
    is_completed := u.is_completed.getD t.is_completed
    priority := u.priority.getD t.priority
    due_date := u.due_date.getD t.due_date }

/-- Default `notification_settings` JSON of a freshly created `Task`
(`task.py` line 39). -/
def defaultNotificationSettings : String :=
  "\x7b\"reminder_enabled\": false, \"reminder_time\": null\x7d"

/-- The priority string-to-integer map used by both the service and the router
(`\x7b"low": 1, "medium": 2, "high": 3\x7d`). -/
def priorityMap (p : String) : Option Nat :=
  if p == "low" then some 1
  else if p == "medium" then some 2
  else if p == "high" then some 3
  else none

/-- Status filter of `TaskService.get_tasks` (`task_service.py` lines 190-196):
`completed`/`pending` constrain `is_completed`; `all` and every other value add
the vacuous constraint `is_completed.in_([True, False])`. -/
def svcStatusFilter (status : Option String) (t : TaskRec) : Bool :=
  match status with
  | none => true
  | some s =>
    if s == "completed" then t.is_completed
    else if s == "pending" then !t.is_completed
    else true

/-- Priority filter of `TaskService.get_tasks` (lines 198-202): an
unrecognized priority string is ignored. -/
def svcPriorityFilter (priority : Option String) (t : TaskRec) : Bool :=
  match priority with
  | none => true
  | some p =>
    match priorityMap p with
    | some n => t.priority == n
    | none => true

/-- Due-date bounds of `TaskService.get_tasks` (lines 204-208). In SQL,
`Task.due_date >= bound` is NULL (not satisfied) when `due_date` is NULL, so a
task with no due date is excluded by a supplied bound. -/
def svcDueFilter (dfrom dto : Option Nat) (t : TaskRec) : Bool :=
  (match dfrom with
   | none => true
   | some d => match t.due_date with
     | some dd => decide (d ≤ dd)
     | none => false) &&
  (match dto with
   | none => true
   | some d => match t.due_date with
     | some dd => decide (dd ≤ d)
     | none => false)

/-- `TaskService.get_tasks` (`task_service.py` lines 172-218). Returns the
result list paired with a flag recording whether a database statement was
executed: with `current_user = None` the function returns `[]` on line 178,
before the query is built. -/
def TaskService_get_tasks (store : List TaskRec) (skip limit : Nat)
    (currentUser : Option UserRec) (status priority : Option String)
    (dfrom dto : Option Nat) : List TaskRec × Bool :=
  match currentUser with
  | none => ([], false)
  | some u =>
    let rows := store.filter (fun t =>
      t.user_id == u.id && t.deleted_at == none &&
      svcStatusFilter status t && svcPriorityFilter priority t &&
      svcDueFilter dfrom dto t)
    (((rows.drop skip).take limit), true)

/-- `TaskService.get_tasks_count` (lines 220-262): same filters, count only,
no offset/limit; returns 0 before any query when `current_user = None`. -/
def TaskService_get_tasks_count (store : List TaskRec)
    (currentUser : Option UserRec) (status priority : Option String)
    (dfrom dto : Option Nat) : Nat × Bool :=
  match currentUser with
  | none => (0, false)
  | some u =>
    ((store.filter (fun t =>
      t.user_id == u.id && t.deleted_at == none &&
      svcStatusFilter status t && svcPriorityFilter priority t &&
      svcDueFilter dfrom dto t)).length, true)

/-- `TaskService.get_deleted_tasks` (lines 99-114): soft-deleted tasks of the
current user with pagination; returns `[]` before any query when
`current_user = None`. -/
def TaskService_get_deleted_tasks (store : List TaskRec) (skip limit : Nat)
    (currentUser : Option UserRec) : List TaskRec × Bool :=
  match currentUser with
  | none => ([], false)
  | some u =>
    ((((store.filter (fun t =>
        t.user_id == u.id && !(t.deleted_at == none))).drop skip).take limit),
      true)

/-- `TaskService.get_task_by_id` (lines 40-47): the caller's active task with
the given id, or none. -/
def TaskService_get_task_by_id (store : List TaskRec) (taskId : String)
    (currentUser : UserRec) : Option TaskRec :=
  store.find? (fun t =>
    t.id == taskId && t.user_id == currentUser.id && t.deleted_at == none)

/-- The `Task(**task_data)` constructed by `TaskService.create_task` (lines
17-20): owner forced to the current user, `version = 1`, both timestamps set
to now, not deleted, default notification settings. `newId`/`now` stand for
`uuid4()`/`utcnow()`. -/
def mkNewTask (tc : TaskCreateRec) (currentUser : UserRec) (newId : String)
    (now : Nat) : TaskRec :=
  { id := newId
    user_id := currentUser.id
    title := tc.title
    description := tc.description
    is_completed := tc.is_completed
    priority := tc.priority
    due_date := tc.due_date
    version := 1
    created_at := now
    updated_at := now
    deleted_at := none
    notification_settings := defaultNotificationSettings }

/-- `TaskService.create_task` (lines 15-38): persist the new task, then invoke
the reminder planner inside `try/except Exception`; a planner failure is
logged (third component) and the persisted task is returned regardless. -/
def TaskService_create_task (store : List TaskRec) (tc : TaskCreateRec)
    (currentUser : UserRec) (newId : String) (now : Nat)
    (planner : Except String Unit) :
    TaskRec × List TaskRec × List String :=
  let task := mkNewTask tc currentUser newId now
  let store1 := store ++ [task]
  match planner with
  | .ok _ => (task, store1, [])
  | .error e =>
    (task, store1, ["Failed to schedule notifications for task: " ++ e])

/-- `TaskService.update_task` (lines 49-74): fetch the caller's active task,
apply exactly the provided fields, persist, then invoke the reminder planner
inside `try/except Exception`; a planner failure is logged and the updated
task is returned regardless. -/
def TaskService_update_task (store : List TaskRec) (taskId : String)
    (u : TaskUpdateRec) (currentUser : UserRec)
    (planner : Except String Unit) :
    Option TaskRec × List TaskRec × List String :=
  match TaskService_get_task_by_id store taskId currentUser with
  | none => (none, store, [])
  | some t =>
    let t1 := applyTaskUpdate u t
    let store1 := store.map (fun x => if x.id == t.id then t1 else x)
    match planner with
    | .ok _ => (some t1, store1, [])
    | .error e =>
      (some t1, store1, ["Failed to reschedule notifications for task: " ++ e])

/-- `TaskService.delete_task` (lines 76-87): soft delete by stamping
`deleted_at = now` on the caller's active task. -/
def TaskService_delete_task (store : List TaskRec) (taskId : String)
    (currentUser : UserRec) (now : Nat) : Bool × List TaskRec :=
  match TaskService_get_task_by_id store taskId currentUser with
  | none => (false, store)
  | some t =>
    (true, store.map (fun x =>
      if x.id == t.id then { x with deleted_at := some now } else x))

/-- `TaskService.toggle_task_completion` (lines 159-170): flip `is_completed`
on the caller's active task. -/
def TaskService_toggle_task_completion (store : List TaskRec) (taskId : String)
    (currentUser : UserRec) : Option TaskRec × List TaskRec :=
  match TaskService_get_task_by_id store taskId currentUser with
  | none => (none, store)
  | some t =>
    let t1 := { t with is_completed := !t.is_completed }
    (some t1, store.map (fun x => if x.id == t.id then t1 else x))

/-- `TaskService.restore_task` (lines 116-134): clear `deleted_at` on the
caller's currently soft-deleted task. -/
def TaskService_restore_task (store : List TaskRec) (taskId : String)
    (currentUser : UserRec) : Option TaskRec × List TaskRec :=
  match store.find? (fun t =>
      t.id == taskId && t.user_id == currentUser.id &&
      !(t.deleted_at == none)) with
  | none => (none, store)
  | some t =>
    let t1 := { t with deleted_at := none }
    (some t1, store.map (fun x => if x.id == t.id then t1 else x))

/-! ## Router layer (`src/backend/src/api/routers/tasks.py`)

Python's `list.sort(key=k, reverse=rev)` is a stable sort; with `reverse=True`
it behaves as if every comparison were reversed, still keeping original order
among key-equal elements. `List.insertionSort r` with a total preorder `r` is
exactly such a stable sort, so each `filtered_tasks.sort(...)` line is
embedded as `insertionSort` over the corresponding key comparison. -/

/-- Comparison of due-date sort keys (`x.due_date or datetime.max`, router
line 96): a null due date becomes `datetime.max`, the top element. -/
def dueLe (a b : Option Nat) : Bool :=
  match a, b with
  | none, none => true
  | none, some _ => false
  | some _, none => true
  | some x, some y => x ≤ y

/-- The sort step of `get_user_tasks` (router lines 90-98): one stable sort by
the selected key, reversed when `sort_order == "desc"`. An unrecognized
`sort_by` leaves the list unsorted. (`updated_at` is a non-null column, so the
`x.updated_at or x.created_at` fallback on line 94 never triggers and the key
is `updated_at`; `x.priority or 0` on line 98 equals `priority`.) -/
def sortTasks (sort_by sort_order : String) (ts : List TaskRec) : List TaskRec :=
  if sort_by == "created_at" then
    if sort_order == "desc" then
      ts.insertionSort (fun x y => y.created_at ≤ x.created_at)
    else
      ts.insertionSort (fun x y => x.created_at ≤ y.created_at)
  else if sort_by == "updated_at" then
    if sort_order == "desc" then
      ts.insertionSort (fun x y => y.updated_at ≤ x.updated_at)
    else
      ts.insertionSort (fun x y => x.updated_at ≤ y.updated_at)
  else if sort_by == "due_date" then
    if sort_order == "desc" then
      ts.insertionSort (fun x y => dueLe y.due_date x.due_date = true)
    else
      ts.insertionSort (fun x y => dueLe x.due_date y.due_date = true)
  else if sort_by == "priority" then
    if sort_order == "desc" then
      ts.insertionSort (fun x y => y.priority ≤ x.priority)
    else
      ts.insertionSort (fun x y => x.priority ≤ y.priority)
  else ts

/-- The in-memory filter loop of `get_user_tasks` (router lines 59-88):
keep tasks whose `user_id` matches the path owner, then re-apply status,
priority and due-date filters; a task with a null due date passes the router's
due-date bounds (lines 79-85 guard on `task.due_date` being truthy). -/
def routerTaskFilter (user_id : String) (status priority : Option String)
    (dfrom dto : Option Nat) (task : TaskRec) : Bool :=
  task.user_id == user_id &&
  (match status with
   | none => true
   | some s =>
     if s == "completed" && !task.is_completed then false
     else if s == "pending" && task.is_completed then false
     else true) &&
  (match priority with
   | none => true
   | some p =>
     match priorityMap p with
     | some n => task.priority == n
     | none => true) &&
  (match dfrom, task.due_date with
   | some d, some dd => !decide (dd < d)
   | _, _ => true) &&
  (match dto, task.due_date with
   | some d, some dd => !decide (d < dd)
   | _, _ => true)

/-- `GET /\x7buser_id\x7d/tasks` (`get_user_tasks`, router lines 17-105).
Returns the HTTP outcome paired with the list of `TaskService` operations
executed, in order. The handler raises 403 *before* constructing the
`TaskService` whenever the authenticated user's id differs from the path
owner id. Note: the service call already applies `offset skip, limit limit`
(line 48-56), and lines 100-103 slice `filtered_tasks[skip : min(skip+limit,
len)]` a second time. -/
def get_user_tasks_handler (store : List TaskRec) (path_user_id : String)
    (status priority : Option String) (dfrom dto : Option Nat)
    (skip limit : Nat) (sort_by sort_order : String) (current : UserRec) :
    Except Nat (List TaskRec) × List String :=
  if current.id != path_user_id then (.error 403, [])
  else
    let all_tasks :=
      (TaskService_get_tasks store skip limit (some current)
        status priority dfrom dto).1
    let filtered_tasks :=
      all_tasks.filter (routerTaskFilter path_user_id status priority dfrom dto)
    let sorted := sortTasks sort_by sort_order filtered_tasks
    let paginated := (sorted.take (min (skip + limit) sorted.length)).drop skip
    (.ok paginated, ["get_tasks"])

/-- `POST /\x7buser_id\x7d/tasks` (`create_user_task`, router lines 108-136):
403 before any service call on owner mismatch; otherwise forces
`task_create.user_id := user_id` and creates. -/
def create_user_task_handler (store : List TaskRec) (path_user_id : String)
    (tc : TaskCreateRec) (current : UserRec) (newId : String) (now : Nat)
    (planner : Except String Unit) :
    Except Nat TaskRec × List TaskRec × List String :=
  if current.id != path_user_id then (.error 403, store, [])
  else
    let tc1 := { tc with user_id := path_user_id }
    let r := TaskService_create_task store tc1 current newId now planner
    (.ok r.1, r.2.1, ["create_task"])

/-- `GET /\x7buser_id\x7d/tasks/\x7btask_id\x7d` (`get_user_task`, router
lines 139-170): 403 before any service call on owner mismatch; otherwise 404
when the caller's active task is absent. -/
def get_user_task_handler (store : List TaskRec)
    (path_user_id task_id : String) (current : UserRec) :
    Except Nat TaskRec × List String :=
  if current.id != path_user_id then (.error 403, [])
  else
    match TaskService_get_task_by_id store task_id current with
    | none => (.error 404, ["get_task_by_id"])
    | some t => (.ok t, ["get_task_by_id"])

/-- `PUT /\x7buser_id\x7d/tasks/\x7btask_id\x7d` (`update_user_task`, router
lines 173-205). -/
def update_user_task_handler (store : List TaskRec)
    (path_user_id task_id : String) (u : TaskUpdateRec) (current : UserRec)
    (planner : Except String Unit) :
    Except Nat TaskRec × List TaskRec × List String :=
  if current.id != path_user_id then (.error 403, store, [])
  else
    match TaskService_update_task store task_id u current planner with
    | (none, store1, _) => (.error 404, store1, ["update_task"])
    | (some t, store1, _) => (.ok t, store1, ["update_task"])

/-- `DELETE /\x7buser_id\x7d/tasks/\x7btask_id\x7d` (`delete_user_task`,
router lines 208-239). -/
def delete_user_task_handler (store : List TaskRec)
    (path_user_id task_id : String) (current : UserRec) (now : Nat) :
    Except Nat Unit × List TaskRec × List String :=
  if current.id != path_user_id then (.error 403, store, [])
  else
    match TaskService_delete_task store task_id current now with
    | (false, store1) => (.error 404, store1, ["delete_task"])
    | (true, store1) => (.ok (), store1, ["delete_task"])

/-- `PATCH /\x7buser_id\x7d/tasks/\x7btask_id\x7d/complete`
(`toggle_task_completion`, router lines 242-273). -/
def toggle_task_completion_handler (store : List TaskRec)
    (path_user_id task_id : String) (current : UserRec) :
    Except Nat TaskRec × List TaskRec × List String :=
  if current.id != path_user_id then (.error 403, store, [])
  else
    match TaskService_toggle_task_completion store task_id current with
    | (none, store1) => (.error 404, store1, ["toggle_task_completion"])
    | (some t, store1) => (.ok t, store1, ["toggle_task_completion"])

/-- `GET /\x7buser_id\x7d/tasks/stats` (`get_user_task_stats`, router lines
276-313): total / completed / pending counts over the caller's active tasks
(fetched with `skip=0, limit=10000`). -/
def get_user_task_stats_handler (store : List TaskRec)
    (path_user_id : String) (current : UserRec) :
    Except Nat (Nat × Nat × Nat) × List String :=
  if current.id != path_user_id then (.error 403, [])
  else
    let all_user_tasks :=
      (TaskService_get_tasks store 0 10000 (some current)
        none none none none).1
    let user_tasks := all_user_tasks.filter (fun t => t.user_id == path_user_id)
    ((.ok (user_tasks.length,
        (user_tasks.filter (fun t => t.is_completed)).length,
        (user_tasks.filter (fun t => !t.is_completed)).length)),
      ["get_tasks"])

/-- `GET /\x7buser_id\x7d/tasks/deleted` (`get_user_deleted_tasks`, router
lines 316-343). -/
def get_user_deleted_tasks_handler (store : List TaskRec)
    (path_user_id : String) (skip limit : Nat) (current : UserRec) :
    Except Nat (List TaskRec) × List String :=
  if current.id != path_user_id then (.error 403, [])
  else
    ((.ok (TaskService_get_deleted_tasks store skip limit (some current)).1),
      ["get_deleted_tasks"])

/-- `POST /\x7buser_id\x7d/tasks/\x7btask_id\x7d/restore`
(`restore_user_task`, router lines 346-377). -/
def restore_user_task_handler (store : List TaskRec)
    (path_user_id task_id : String) (current : UserRec) :
    Except Nat TaskRec × List TaskRec × List String :=
  if current.id != path_user_id then (.error 403, store, [])
  else
    match TaskService_restore_task store task_id current with
    | (none, store1) => (.error 404, store1, ["restore_task"])
    | (some t, store1) => (.ok t, store1, ["restore_task"])

/-! ## UserDirectory (`src/backend/src/services/user_service.py`) -/

/-- `UserService.get_user_by_email` (lines 75-88). -/
def UserService_get_user_by_email (users : List UserRec) (email : String) :
    Option UserRec :=
  users.find? (fun u => u.email == email)

/-- `UserService.authenticate_user` (lines 135-154), instrumented with the
number of `verify_password` (bcrypt) comparisons performed. When the email
lookup misses, the source returns `None` on line 149 *without* invoking
`verify_password`; when a user is found, exactly one comparison runs. -/
def UserService_authenticate_user (verify : String → String → Bool)
    (users : List UserRec) (email password : String) :
    Option UserRec × Nat :=
  match UserService_get_user_by_email users email with
  | none => (none, 0)
  | some user =>
    if verify password user.hashed_password then (some user, 1)
    else (none, 1)

/-! ## RateGate (`src/backend/src/middleware/rate_limiter.py`)

One sliding-window queue per `(ip, endpoint_pattern)` key; keys live in a
`defaultdict` and never interact, so the embedding models a single key's
queue. Timestamps are `Nat`; `now - window` uses truncated subtraction, which
agrees with the source's float arithmetic for the eviction test `t <
now - window` whenever `now < window` (nothing nonnegative is below a
negative or zero boundary). -/

/-- The eviction loop of `RateLimiter.is_allowed` (lines 106-108): pop from
the front while the oldest timestamp is strictly before `now - window`. -/
def evictOld (window now : Nat) (q : List Nat) : List Nat :=
  q.dropWhile (fun t => decide (t < now - window))

/-- Rate-limit info dictionary returned by `RateLimiter.is_allowed`
(lines 118-123 and 128-133). -/
structure RateInfoRec where
  limit : Nat
  remaining : Nat
  reset_time : Nat
  retry_after : Nat
deriving Repr, DecidableEq

/-- `RateLimiter.is_allowed` (lines 81-133) for one key with configured
`lim` requests per `window` seconds: evict expired timestamps, deny without
recording when the surviving count reaches the limit, otherwise record `now`
and allow. Returns (allowed, info, new queue). -/
def RateLimiter_is_allowed (lim window : Nat) (q : List Nat) (now : Nat) :
    Bool × RateInfoRec × List Nat :=
  let q1 := evictOld window now q
  if lim ≤ q1.length then
    let oldest := q1.headD now
    (false,
      { limit := lim, remaining := 0, reset_time := oldest + window
        retry_after := oldest + window - now },
      q1)
  else
    (true,
      { limit := lim, remaining := lim - q1.length - 1
        reset_time := now + window, retry_after := window },
      q1 ++ [now])

/-- `get_rate_limit_info` (lines 241-252): literally
`rate_limiter.is_allowed(ip, path)[1]` — it returns only the info dictionary,
but the mutation of the shared queue performed by `is_allowed` persists, so
the embedding returns the mutated queue alongside the info. -/
def get_rate_limit_info (lim window : Nat) (q : List Nat) (now : Nat) :
    RateInfoRec × List Nat :=
  let r := RateLimiter_is_allowed lim window q now
  (r.2.1, r.2.2)

/-- A sequence of `is_allowed` calls against one key, at the given times:
returns the admission verdicts and the final queue. -/
def runQueue (lim window : Nat) (q : List Nat) : List Nat → List Bool × List Nat
  | [] => ([], q)
  | t :: ts =>
    let r := RateLimiter_is_allowed lim window q t
    let rest := runQueue lim window r.2.2 ts
    (r.1 :: rest.1, rest.2)

/-! ## Fixtures used by concrete evaluations and witnesses -/

/-- A fixture user (owner id "u1"). -/
def fxUser : UserRec :=
  { id := "u1", email := "u1@x.com", hashed_password := "h1" }

/-- A second fixture user, distinct from `fxUser`. -/
def fxIntruder : UserRec :=
  { id := "u2", email := "u2@x.com", hashed_password := "h2" }

/-- Fixture task number `n`, owned by "u1", active, `created_at = n`. -/
def fxTask (n : Nat) : TaskRec :=
  { id := "t" ++ toString n
    user_id := "u1"
    title := "T" ++ toString n
    description := none
    is_completed := false
    priority := 1
    due_date := none
    version := 1
    created_at := n
    updated_at := n
    deleted_at := none
    notification_settings := defaultNotificationSettings }

/-- The stable 5-task fixture of the pagination claim, in insertion order. -/
def fxStore : List TaskRec :=
  [fxTask 1, fxTask 2, fxTask 3, fxTask 4, fxTask 5]

/-- A non-empty partial update (sets only the title). -/
def fxUpd : TaskUpdateRec := { title := some "renamed" }

/-- Fixture task with a due date, for the due-date sort claims. -/
def fxDueSome : TaskRec := { fxTask 1 with id := "a", due_date := some 5 }

/-- Fixture task without a due date. -/
def fxDueNone : TaskRec := { fxTask 2 with id := "b", due_date := none }

/-- A second fixture task without a due date. -/
def fxDueNone2 : TaskRec := { fxTask 3 with id := "c", due_date := none }

/-! ## C1 — AuthorizationGuard -/

/-- C1: for every authenticated user and every path owner id different from
that user's id, each of the nine task endpoints (list, create, get, update,
delete, toggle-complete, stats, deleted-list, restore) returns 403 Forbidden
with an empty TaskStore operation log and an unchanged store, for every store
and every request payload — i.e. regardless of whether the owner or the task
exists. -/
theorem claim1_authorization_before_store (store : List TaskRec) (B : String)
    (current : UserRec) (h : current.id ≠ B)
    (status priority : Option String) (dfrom dto : Option Nat)
    (skip limit : Nat) (sort_by sort_order : String)
    (tc : TaskCreateRec) (task_id newId : String) (now : Nat)
    (upd : TaskUpdateRec) (planner : Except String Unit) :
    get_user_tasks_handler store B status priority dfrom dto skip limit
        sort_by sort_order current = (.error 403, []) ∧
    create_user_task_handler store B tc current newId now planner =
      (.error 403, store, []) ∧
    get_user_task_handler store B task_id current = (.error 403, []) ∧
    update_user_task_handler store B task_id upd current planner =
      (.error 403, store, []) ∧
    delete_user_task_handler store B task_id current now =
      (.error 403, store, []) ∧
    toggle_task_completion_handler store B task_id current =
      (.error 403, store, []) ∧
    get_user_task_stats_handler store B current = (.error 403, []) ∧
    get_user_deleted_tasks_handler store B skip limit current =
      (.error 403, []) ∧
    restore_user_task_handler store B task_id current =
      (.error 403, store, []) := by
  have hb : (current.id != B) = true := bne_iff_ne.mpr h
  refine ⟨?_, ?_, ?_, ?_, ?_, ?_, ?_, ?_, ?_⟩ <;>
    simp only [get_user_tasks_handler, create_user_task_handler,
      get_user_task_handler, update_user_task_handler,
      delete_user_task_handler, toggle_task_completion_handler,
      get_user_task_stats_handler, get_user_deleted_tasks_handler,
      restore_user_task_handler, hb, if_true]

/-- Witness for C1 at a concrete mismatched pair of ids. -/
theorem claim1_witness :
    fxUser.id ≠ "u2" ∧
    get_user_tasks_handler fxStore "u2" none none none none 0 100
      "created_at" "desc" fxUser = (.error 403, []) :=
  ⟨by decide,
    (claim1_authorization_before_store fxStore "u2" fxUser (by decide)
      none none none none 0 100 "created_at" "desc"
      { title := "x", description := none, is_completed := false,
        priority := 1, due_date := none, user_id := "u2" }
      "t9" "n1" 0 fxUpd (.ok ())).1⟩

/-! ## C2 — owner isolation of the list operation -/

/-- C2: every task returned by `TaskService.get_tasks` carries the caller's
user id; hence a task owned by a different user is never returned. -/
theorem claim2_owner_isolation (store : List TaskRec) (skip limit : Nat)
    (u : UserRec) (status priority : Option String) (dfrom dto : Option Nat)
    (t : TaskRec)
    (ht : t ∈ (TaskService_get_tasks store skip limit (some u)
        status priority dfrom dto).1) :
    t.user_id = u.id := by
  simp only [TaskService_get_tasks] at ht
  have h1 : t ∈ (store.filter (fun t =>
      t.user_id == u.id && t.deleted_at == none &&
      svcStatusFilter status t && svcPriorityFilter priority t &&
      svcDueFilter dfrom dto t)).drop skip :=
    List.take_subset _ _ ht
  have h2 := List.drop_subset _ _ h1
  have h3 := (List.mem_filter.mp h2).2
  simp only [Bool.and_eq_true, beq_iff_eq] at h3
  exact h3.1.1.1.1

/-- Witness for C2: the fixture task is in the fixture owner's list result,
and the theorem yields its owner id. -/
theorem claim2_witness :
    fxTask 1 ∈ (TaskService_get_tasks fxStore 0 100 (some fxUser)
        none none none none).1 ∧
    (fxTask 1).user_id = fxUser.id :=
  ⟨by decide,
    claim2_owner_isolation fxStore 0 100 fxUser none none none none
      (fxTask 1) (by decide)⟩

/-! ## C3 — the version counter under update -/

/-- C3 counterexample: a successful non-empty update of an active task owned
by the caller leaves `version` at 1 — it is not strictly increased. -/
theorem claim3_counterexample :
    fxUpd.nonEmpty = true ∧
    TaskService_get_task_by_id [fxTask 1] "t1" fxUser = some (fxTask 1) ∧
    (TaskService_update_task [fxTask 1] "t1" fxUpd fxUser (.ok ())).1 =
      some (applyTaskUpdate fxUpd (fxTask 1)) ∧
    (fxTask 1).version = 1 ∧
    (applyTaskUpdate fxUpd (fxTask 1)).version = 1 ∧
    ¬ (fxTask 1).version < (applyTaskUpdate fxUpd (fxTask 1)).version := by
  refine ⟨rfl, by decide, by decide, rfl, rfl, by decide⟩

/-- C3 amended: for every active task of the caller and every partial update,
a successful `update_task` returns the task with the update applied, and its
`version` equals the version before the update — the counter is never
incremented (so it is constant, hence trivially non-decreasing, over the
task's lifetime). -/
theorem claim3_version_unchanged (store : List TaskRec) (tid : String)
    (upd : TaskUpdateRec) (user : UserRec) (planner : Except String Unit)
    (t : TaskRec) (h : TaskService_get_task_by_id store tid user = some t) :
    (TaskService_update_task store tid upd user planner).1 =
      some (applyTaskUpdate upd t) ∧
    (applyTaskUpdate upd t).version = t.version := by
  constructor
  · simp only [TaskService_update_task, h]
    cases planner <;> rfl
  · rfl

/-- Witness for C3's amended theorem at a concrete task and update. -/
theorem claim3_witness :
    TaskService_get_task_by_id [fxTask 1] "t1" fxUser = some (fxTask 1) ∧
    (TaskService_update_task [fxTask 1] "t1" fxUpd fxUser (.ok ())).1 =
      some (applyTaskUpdate fxUpd (fxTask 1)) :=
  ⟨by decide,
    (claim3_version_unchanged [fxTask 1] "t1" fxUpd fxUser (.ok ())
      (fxTask 1) (by decide)).1⟩

/-! ## C8 — planner failures never fail the task mutation -/

/-- C8: for every create input and every update of an existing active task,
if the reminder planner raises any exception `e`, the mutation still succeeds:
`create_task` returns the persisted new task and appends it to the store, and
`update_task` returns the persisted updated task, with exactly the same
returned task and store as when the planner succeeds. -/
theorem claim8_planner_failure_isolated (store : List TaskRec)
    (tc : TaskCreateRec) (user : UserRec) (newId : String) (now : Nat)
    (e : String) (tid : String) (upd : TaskUpdateRec) (t : TaskRec)
    (h : TaskService_get_task_by_id store tid user = some t) :
    (TaskService_create_task store tc user newId now (.error e)).1 =
      mkNewTask tc user newId now ∧
    (TaskService_create_task store tc user newId now (.error e)).2.1 =
      store ++ [mkNewTask tc user newId now] ∧
    (TaskService_create_task store tc user newId now (.error e)).1 =
      (TaskService_create_task store tc user newId now (.ok ())).1 ∧
    (TaskService_create_task store tc user newId now (.error e)).2.1 =
      (TaskService_create_task store tc user newId now (.ok ())).2.1 ∧
    (TaskService_update_task store tid upd user (.error e)).1 =
      some (applyTaskUpdate upd t) ∧
    (TaskService_update_task store tid upd user (.error e)).2.1 =
      (TaskService_update_task store tid upd user (.ok ())).2.1 := by
  refine ⟨rfl, rfl, rfl, rfl, ?_, ?_⟩ <;>
    simp only [TaskService_update_task, h]

/-- Witness for C8 at a concrete failing planner. -/
theorem claim8_witness :
    TaskService_get_task_by_id [fxTask 1] "t1" fxUser = some (fxTask 1) ∧
    (TaskService_update_task [fxTask 1] "t1" fxUpd fxUser
        (.error "boom")).1 = some (applyTaskUpdate fxUpd (fxTask 1)) :=
  ⟨by decide,
    (claim8_planner_failure_isolated [fxTask 1]
      { title := "x", description := none, is_completed := false,
        priority := 1, due_date := none, user_id := "u1" }
      fxUser "t9" 0 "boom" "t1" fxUpd (fxTask 1) (by decide)).2.2.2.2.1⟩

/-! ## C10 — service calls with no current user -/

/-- C10: for every store, pagination and filter combination,
`TaskService.get_tasks`, `get_tasks_count` and `get_deleted_tasks` called with
`current_user = None` return `[]` (respectively 0) with the
database-statement flag false — no storage access happens and no user's task
can be seen. -/
theorem claim10_none_user_empty (store : List TaskRec) (skip limit : Nat)
    (status priority : Option String) (dfrom dto : Option Nat) :
    TaskService_get_tasks store skip limit none status priority dfrom dto =
      ([], false) ∧
    TaskService_get_tasks_count store none status priority dfrom dto =
      (0, false) ∧
    TaskService_get_deleted_tasks store skip limit none = ([], false) :=
  ⟨rfl, rfl, rfl⟩

/-! ## C4 — pagination of the list endpoint -/

/-- C4 (code evaluation at the failing input): over the stable 5-task fixture
with default sort, the three pages `(skip,limit) = (0,2), (2,2), (4,2)` of
`get_user_tasks` evaluate to `[task2, task1]`, `[]` and `[]` — because the
service already applied `offset skip, limit limit` and the router then slices
`[skip : skip+limit]` a second time — while the filtered-and-sorted sequence
is `[task5, task4, task3, task2, task1]`; the concatenated pages do not
partition it (elements t5, t4, t3 appear on no page). -/
theorem claim4_pagination_code_eval :
    (get_user_tasks_handler fxStore "u1" none none none none 0 2
        "created_at" "desc" fxUser).1 = .ok [fxTask 2, fxTask 1] ∧
    (get_user_tasks_handler fxStore "u1" none none none none 2 2
        "created_at" "desc" fxUser).1 = .ok [] ∧
    (get_user_tasks_handler fxStore "u1" none none none none 4 2
        "created_at" "desc" fxUser).1 = .ok [] ∧
    sortTasks "created_at" "desc"
        (fxStore.filter (routerTaskFilter "u1" none none none none)) =
      [fxTask 5, fxTask 4, fxTask 3, fxTask 2, fxTask 1] ∧
    [fxTask 2, fxTask 1] ++ ([] : List TaskRec) ++ [] ≠
      [fxTask 5, fxTask 4, fxTask 3, fxTask 2, fxTask 1] :=
  ⟨rfl, rfl, rfl, rfl, by decide⟩

/-! ## C5 — placement of null due dates under due-date sort -/

/-- C5 counterexample: sorting by due date in *descending* order places the
task with a null due date (key `datetime.max`, reversed to the front) before
the task with a due date — not after it. -/
theorem claim5_counterexample :
    fxDueSome.due_date = some 5 ∧ fxDueNone.due_date = none ∧
    sortTasks "due_date" "desc" [fxDueSome, fxDueNone] =
      [fxDueNone, fxDueSome] :=
  ⟨rfl, rfl, rfl⟩

/-- `dueLe` is total. -/
theorem dueLe_total (a b : Option Nat) : dueLe a b = true ∨ dueLe b a = true := by
  cases a with
  | none => cases b <;> simp [dueLe]
  | some x =>
    cases b with
    | none => simp [dueLe]
    | some y => simpa [dueLe] using Nat.le_total x y

/-- `dueLe` is transitive. -/
theorem dueLe_trans {a b c : Option Nat} (h1 : dueLe a b = true)
    (h2 : dueLe b c = true) : dueLe a c = true := by
  cases a <;> cases b <;> cases c <;> simp_all [dueLe]
  omega

/-- C5 amended: when sorting by due date, a task with a null due date (sort
key `datetime.max`) is placed after every task with a non-null due date in
*ascending* order, and before every such task in *descending* order. -/
theorem claim5_due_nulls_position (ts : List TaskRec) :
    (∀ i j : Fin (sortTasks "due_date" "asc" ts).length, i < j →
      ((sortTasks "due_date" "asc" ts).get i).due_date = none →
      ((sortTasks "due_date" "asc" ts).get j).due_date = none) ∧
    (∀ i j : Fin (sortTasks "due_date" "desc" ts).length, i < j →
      ((sortTasks "due_date" "desc" ts).get j).due_date = none →
      ((sortTasks "due_date" "desc" ts).get i).due_date = none) := by
  constructor
  · haveI : IsTotal TaskRec (fun x y => dueLe x.due_date y.due_date = true) :=
      ⟨fun x y => dueLe_total _ _⟩
    haveI : IsTrans TaskRec (fun x y => dueLe x.due_date y.due_date = true) :=
      ⟨fun _ _ _ => dueLe_trans⟩
    have hs : (sortTasks "due_date" "asc" ts).Sorted
        (fun x y => dueLe x.due_date y.due_date = true) :=
      List.sorted_insertionSort _ ts
    intro i j hij hnone
    have hrel := hs.rel_get_of_lt hij
    cases hj : ((sortTasks "due_date" "asc" ts).get j).due_date with
    | none => rfl
    | some d => rw [hnone, hj] at hrel; simp [dueLe] at hrel
  · haveI : IsTotal TaskRec (fun x y => dueLe y.due_date x.due_date = true) :=
      ⟨fun x y => dueLe_total _ _⟩
    haveI : IsTrans TaskRec (fun x y => dueLe y.due_date x.due_date = true) :=
      ⟨fun _ _ _ h1 h2 => dueLe_trans h2 h1⟩
    have hs : (sortTasks "due_date" "desc" ts).Sorted
        (fun x y => dueLe y.due_date x.due_date = true) :=
      List.sorted_insertionSort _ ts
    intro i j hij hnone
    have hrel := hs.rel_get_of_lt hij
    cases hi : ((sortTasks "due_date" "desc" ts).get i).due_date with
    | none => rfl
    | some d => rw [hnone, hi] at hrel; simp [dueLe] at hrel

/-- Witness for C5's amended theorem on a concrete three-task list. -/
theorem claim5_witness :
    ((1 : Fin 3) < (2 : Fin 3)) ∧
    ((sortTasks "due_date" "asc" [fxDueNone, fxDueSome, fxDueNone2]).get
      ⟨2, by decide⟩).due_date = none :=
  ⟨by decide,
    (claim5_due_nulls_position [fxDueNone, fxDueSome, fxDueNone2]).1
      ⟨1, by decide⟩ ⟨2, by decide⟩ (by decide) (by decide)⟩

/-! ## C6 — timing-safe authenticate -/

/-- C6 (code evaluation): `UserService.authenticate_user` performs zero
password-hash comparisons when the email lookup misses, but exactly one when
a user with that email exists — the sequence of operations performed depends
on user existence, and no dummy-hash comparison happens on a miss. -/
theorem claim6_no_dummy_compare :
    UserService_authenticate_user (fun _ _ => false) [] "missing@x.com" "pw" =
      (none, 0) ∧
    (∀ verify : String → String → Bool, ∀ password : String,
      UserService_authenticate_user verify [] "missing@x.com" password =
        (none, 0)) ∧
    UserService_authenticate_user (fun _ _ => false) [fxUser] "u1@x.com" "pw" =
      (none, 1) :=
  ⟨rfl, fun _ _ => rfl, rfl⟩

/-! ## C7 / C9 — RateGate lemmas -/

/-- If no element of the queue is expired at `now`, eviction is a no-op. -/
theorem evictOld_eq_self (window now : Nat) (q : List Nat)
    (h : ∀ s ∈ q, ¬ s < now - window) : evictOld window now q = q := by
  cases q with
  | nil => rfl
  | cons a t =>
    have ha : decide (a < now - window) = false :=
      decide_eq_false (h a (List.mem_cons_self a t))
    simp [evictOld, List.dropWhile_cons, ha]

/-- If every element of the queue is expired at `now`, eviction empties it. -/
theorem evictOld_eq_nil (window now : Nat) (q : List Nat)
    (h : ∀ s ∈ q, s < now - window) : evictOld window now q = [] := by
  induction q with
  | nil => rfl
  | cons a t ih =>
    have ha : decide (a < now - window) = true :=
      decide_eq_true (h a (List.mem_cons_self a t))
    have ht := ih (fun s hs => h s (List.mem_cons_of_mem a hs))
    simp only [evictOld, List.dropWhile_cons, ha, if_true] at ht ⊢
    exact ht

/-- After eviction the queue is empty or starts with an unexpired timestamp. -/
theorem evictOld_shape (window now : Nat) (q : List Nat) :
    evictOld window now q = [] ∨
    ∃ a t, evictOld window now q = a :: t ∧ ¬ a < now - window := by
  induction q with
  | nil => exact Or.inl rfl
  | cons b l ih =>
    by_cases hb : b < now - window
    · have hbd : decide (b < now - window) = true := decide_eq_true hb
      simpa [evictOld, List.dropWhile_cons, hbd] using ih
    · have hbd : decide (b < now - window) = false := decide_eq_false hb
      exact Or.inr ⟨b, l, by simp [evictOld, List.dropWhile_cons, hbd], hb⟩

/-- Appending the just-recorded timestamp `now` keeps an already evicted
queue eviction-stable at time `now`. -/
theorem evictOld_append_now (window now : Nat) (q : List Nat) :
    evictOld window now (evictOld window now q ++ [now]) =
      evictOld window now q ++ [now] := by
  have hn : decide (now < now - window) = false := decide_eq_false (by omega)
  rcases evictOld_shape window now q with h | ⟨a, t, h, ha⟩
  · rw [h]
    simp [evictOld, List.dropWhile_cons, hn]
  · rw [h]
    have hd : decide (a < now - window) = false := decide_eq_false ha
    show List.dropWhile _ ((a :: t) ++ [now]) = (a :: t) ++ [now]
    simp [List.dropWhile_cons, hd]

/-- A call over the limit is denied and the stored queue is exactly the
evicted queue — a deny records nothing. -/
theorem is_allowed_deny (lim window : Nat) (q : List Nat) (now : Nat)
    (hfull : lim ≤ (evictOld window now q).length) :
    (RateLimiter_is_allowed lim window q now).1 = false ∧
    (RateLimiter_is_allowed lim window q now).2.2 = evictOld window now q := by
  simp [RateLimiter_is_allowed, hfull]

/-- A call under the limit is allowed and records its timestamp. -/
theorem is_allowed_allow (lim window : Nat) (q : List Nat) (now : Nat)
    (hroom : (evictOld window now q).length < lim) :
    (RateLimiter_is_allowed lim window q now).1 = true ∧
    (RateLimiter_is_allowed lim window q now).2.2 =
      evictOld window now q ++ [now] := by
  have h : ¬ lim ≤ (evictOld window now q).length := Nat.not_le.mpr hroom
  simp [RateLimiter_is_allowed, h]

/-- Starting from a queue with room for all of them, calls at times none of
which expires any involved timestamp are all allowed, each appending its
timestamp. -/
theorem runQueue_all_allowed (lim window : Nat) :
    ∀ (times q : List Nat),
      q.length + times.length ≤ lim →
      (∀ s ∈ q ++ times, ∀ t ∈ times, ¬ s < t - window) →
      runQueue lim window q times =
        (times.map (fun _ => true), q ++ times) := by
  intro times
  induction times with
  | nil =>
    intro q _ _
    simp [runQueue]
  | cons t ts ih =>
    intro q h1 h2
    have he : evictOld window t q = q :=
      evictOld_eq_self window t q (fun s hs =>
        h2 s (List.mem_append_left _ hs) t (List.mem_cons_self t ts))
    have hroom : (evictOld window t q).length < lim := by
      rw [he]
      simp only [List.length_cons] at h1
      omega
    have e1 := (is_allowed_allow lim window q t hroom).1
    have e2 : (RateLimiter_is_allowed lim window q t).2.2 = q ++ [t] := by
      rw [(is_allowed_allow lim window q t hroom).2, he]
    have hstep := ih (q ++ [t])
      (by simp at h1 ⊢; omega)
      (by
        intro s hs u hu
        apply h2 s ?_ u (List.mem_cons_of_mem _ hu)
        simp only [List.mem_append, List.mem_cons, List.mem_singleton] at hs ⊢
        tauto)
    show ((RateLimiter_is_allowed lim window q t).1 ::
        (runQueue lim window ((RateLimiter_is_allowed lim window q t).2.2)
          ts).1,
        (runQueue lim window ((RateLimiter_is_allowed lim window q t).2.2)
          ts).2) = _
    rw [e1, e2, hstep]
    simp

/-- One call never grows the queue beyond the limit. -/
theorem is_allowed_queue_le (lim window : Nat) (q : List Nat) (now : Nat)
    (h : q.length ≤ lim) :
    ((RateLimiter_is_allowed lim window q now).2.2).length ≤ lim := by
  have hev : (evictOld window now q).length ≤ q.length :=
    (List.dropWhile_sublist _).length_le
  by_cases hc : lim ≤ (evictOld window now q).length
  · rw [(is_allowed_deny lim window q now hc).2]
    omega
  · rw [(is_allowed_allow lim window q now (Nat.not_le.mp hc)).2]
    simp only [List.length_append, List.length_singleton]
    omega

/-- No call sequence ever grows the queue beyond the limit. -/
theorem runQueue_queue_le (lim window : Nat) :
    ∀ (times q : List Nat), q.length ≤ lim →
      ((runQueue lim window q times).2).length ≤ lim := by
  intro times
  induction times with
  | nil => intro q h; exact h
  | cons t ts ih =>
    intro q h
    show ((runQueue lim window
        ((RateLimiter_is_allowed lim window q t).2.2) ts).2).length ≤ lim
    exact ih _ (is_allowed_queue_le lim window q t h)

/-- C7: for a key with configured limit `lim` and window `window`, starting
from an empty queue: `lim` requests at times inside one window are all
allowed, each recording its timestamp; one more request inside that window is
denied and leaves the stored queue unchanged; after the window elapses (every
recorded timestamp expired) a request is admitted again onto a freshly
evicted queue; and no sequence of requests ever makes the recorded queue
exceed `lim` entries. -/
theorem claim7_sliding_window (lim window a : Nat) (times : List Nat)
    (hpos : 0 < lim) (hlen : times.length = lim)
    (hin : ∀ t ∈ times, a ≤ t ∧ t ≤ a + window)
    (tdeny trec : Nat) (hdeny1 : a ≤ tdeny) (hdeny2 : tdeny ≤ a + window)
    (hrec : ∀ t ∈ times, t < trec - window) :
    runQueue lim window [] times = (times.map (fun _ => true), times) ∧
    (RateLimiter_is_allowed lim window times tdeny).1 = false ∧
    (RateLimiter_is_allowed lim window times tdeny).2.2 = times ∧
    (RateLimiter_is_allowed lim window times trec).1 = true ∧
    (RateLimiter_is_allowed lim window times trec).2.2 = [trec] ∧
    (∀ anyTimes : List Nat,
      ((runQueue lim window [] anyTimes).2).length ≤ lim) := by
  have hall : runQueue lim window [] times =
      (times.map (fun _ => true), times) := by
    have := runQueue_all_allowed lim window times []
      (by simp [hlen])
      (by
        intro s hs t ht
        have hs1 : s ∈ times := by simpa using hs
        have h1 := hin s hs1
        have h2 := hin t ht
        omega)
    simpa using this
  have hedeny : evictOld window tdeny times = times :=
    evictOld_eq_self window tdeny times (fun s hs => by
      have h1 := hin s hs
      omega)
  have hfull : lim ≤ (evictOld window tdeny times).length := by
    rw [hedeny, hlen]
  have herec : evictOld window trec times = [] :=
    evictOld_eq_nil window trec times hrec
  have hroom : (evictOld window trec times).length < lim := by
    rw [herec]
    simpa using hpos
  refine ⟨hall, (is_allowed_deny lim window times tdeny hfull).1, ?_,
    (is_allowed_allow lim window times trec hroom).1, ?_, ?_⟩
  · rw [(is_allowed_deny lim window times tdeny hfull).2, hedeny]
  · rw [(is_allowed_allow lim window times trec hroom).2, herec]
    rfl
  · intro anyTimes
    exact runQueue_queue_le lim window anyTimes [] (by simp)

/-- Witness for C7 with limit 2, window 10, requests at 0 and 1, a denied
request at 5 and a recovered request at 20. -/
theorem claim7_witness :
    runQueue 2 10 [] [0, 1] = ([true, true], [0, 1]) ∧
    (RateLimiter_is_allowed 2 10 [0, 1] 5).1 = false ∧
    (RateLimiter_is_allowed 2 10 [0, 1] 5).2.2 = [0, 1] ∧
    (RateLimiter_is_allowed 2 10 [0, 1] 20).1 = true ∧
    (RateLimiter_is_allowed 2 10 [0, 1] 20).2.2 = [20] := by
  have h := claim7_sliding_window 2 10 0 [0, 1] (by decide) (by decide)
    (by decide) 5 20 (by decide) (by decide) (by decide)
  exact ⟨h.1, h.2.1, h.2.2.1, h.2.2.2.1, h.2.2.2.2.1⟩

/-- C9: `get_rate_limit_info` is not a pure read. Whenever the key is under
its limit after eviction, the call appends the current timestamp to the
stored sliding-window queue; and when the key was exactly one below its
limit, the info call consumes the last admission slot, so a genuine request
at the same instant is denied. -/
theorem claim9_info_mutates (lim window : Nat) (q : List Nat) (now : Nat) :
    ((evictOld window now q).length < lim →
      (get_rate_limit_info lim window q now).2 =
        evictOld window now q ++ [now]) ∧
    ((evictOld window now q).length + 1 = lim →
      (RateLimiter_is_allowed lim window
        ((get_rate_limit_info lim window q now).2) now).1 = false) := by
  constructor
  · intro h
    exact (is_allowed_allow lim window q now h).2
  · intro h
    have h1 : (get_rate_limit_info lim window q now).2 =
        evictOld window now q ++ [now] :=
      (is_allowed_allow lim window q now (by omega)).2
    rw [h1]
    refine (is_allowed_deny lim window (evictOld window now q ++ [now])
      now ?_).1
    rw [evictOld_append_now]
    simp only [List.length_append, List.length_singleton]
    omega

/-- Witness for C9: with limit 2 and window 10, an info call against the
queue `[3]` at time 5 stores `[3, 5]`, and the next genuine request at time
5 is denied. -/
theorem claim9_witness :
    (get_rate_limit_info 2 10 [3] 5).2 = [3, 5] ∧
    (RateLimiter_is_allowed 2 10 ((get_rate_limit_info 2 10 [3] 5).2) 5).1 =
      false := by
  have h := claim9_info_mutates 2 10 [3] 5
  exact ⟨h.1 (by decide), h.2 (by decide)⟩
